import Mathlib

/-!
Verification of the trikhub server-playground agent
(`examples/server-playground/agent/{trik_client,tools,agent,cli}.py`)
against its natural-language specification.

The Python sources are shallowly embedded: JSON dictionaries become
structures of `Option`-valued fields (`none` = key absent), Python `None`
becomes `Option.none`, Python string truthiness is modelled explicitly,
network effects become oracle functions passed as arguments, and the
module-level mutable state (session token, passthrough slot) becomes
explicit state passing.
-/

namespace Trikhub

/-- JSON-ish scalar/structured values carried as tool arguments
(`kwargs` values in `TrikClient.execute_tool`). -/
inductive JValue where
  | str (s : String)
  | num (n : Int)
  | bool (b : Bool)
  deriving DecidableEq

/-- Metadata dictionaries (`dict` in the Python source) are modelled as
association lists of strings. -/
abbrev MetaD := List (String × String)

/-- Python truthiness of an optional string: `None` and `""` are falsy. -/
def pyTruthyStr : Option String → Bool
  | none => false
  | some s => !s.isEmpty

/-- Python `a or b` on optional strings (used in
`sid = session_id or self._session_id`). -/
def pyOrStr (a b : Option String) : Option String :=
  if pyTruthyStr a then a else b

/-- Python `dict.get(key)`: first binding of the key, if any. -/
def lookupKey {α : Type} (l : List (String × α)) (k : String) : Option α :=
  (l.find? (fun p => p.1 == k)).map (·.2)

/-! ### `trik_client.py`: the gateway client -/

/-- The decoded `/api/v1/execute` response envelope.  Fields mirror the keys
read by `TrikClient.execute` / `TrikClient.execute_tool`; `none` means the
key is absent from the JSON object. -/
structure ExecResult where
  success : Bool
  error : Option String := none
  responseMode : Option String := none
  response : Option String := none
  userContentRef : Option String := none
  contentType : Option String := none
  sessionId : Option String := none
  deriving DecidableEq

/-- An HTTP response to a POST of `/api/v1/execute`: `ok` is
`response.ok` (2xx) and `env` the decoded JSON body. -/
structure HttpResp where
  ok : Bool
  env : ExecResult
  deriving DecidableEq

/-- The JSON payload transmitted by `TrikClient.execute`:
`{"tool": ..., "input": ..., "sessionId"?: ...}` where the `sessionId`
key is only present when `sid` is truthy. -/
structure Payload where
  tool : String
  input : List (String × JValue)
  sessionId : Option String := none
  deriving DecidableEq

/-- What one call of `TrikClient.execute` produces: the payload it
transmitted, the new value of `self._session_id`, and the envelope it
returns to the caller. -/
structure ExecOutcome where
  payload : Payload
  newSession : Option String
  result : ExecResult
  deriving DecidableEq

/-- The payload built at the top of `TrikClient.execute`:
`sid = session_id or self._session_id`, and the `sessionId` key is added
only `if sid:`. -/
def txPayload (tool : String) (inputData : List (String × JValue))
    (sessionArg st : Option String) : Payload :=
  let sid := pyOrStr sessionArg st
  { tool := tool, input := inputData,
    sessionId := if pyTruthyStr sid then sid else none }

/-- Model of `TrikClient.execute`: builds the payload (with `sessionId` set from the
caller-supplied `session_id` or, failing that, the stored
`self._session_id`), POSTs it (modelled by the `respond` oracle), and on an
HTTP-ok response stores a truthy returned `sessionId`; a non-ok response
returns the decoded envelope early, with the stored session unchanged.
In both branches the Python method hands back the decoded envelope, so the
two returns are merged into one outcome record here. -/
def TrikClient.execute (respond : Payload → HttpResp) (tool : String)
    (inputData : List (String × JValue)) (sessionArg st : Option String) :
    ExecOutcome :=
  let payload := txPayload tool inputData sessionArg st
  let resp := respond payload
  { payload := payload,
    newSession :=
      if !resp.ok then st
      else if pyTruthyStr resp.env.sessionId then resp.env.sessionId else st,
    result := resp.env }

/-- The inner object of a `/api/v1/content/{ref}` response
(`content_result["content"]`): `content_data.get("content", "")` and
`content_data.get("metadata", {})`. -/
structure ContentData where
  content : Option String := none
  metadata : Option MetaD := none
  deriving DecidableEq

/-- The decoded `/api/v1/content/{ref}` response.  `content = none` models a
missing `"content"` key, on which the Python `content_result["content"]`
raises `KeyError`. -/
structure ContentResult where
  success : Bool
  content : Option ContentData := none
  deriving DecidableEq

/-- The response-dispatch part of `TrikClient.execute_tool` (everything after
`result = self.execute(...)`).  `getContent` models `self.get_content`
(`none` = the GET raised), `hasCb` models `self.on_passthrough` being set.
Returns `none` when the Python code would raise, otherwise the string
handed back to the agent together with the list of passthrough-callback
invocations (content, metadata) made along the way. -/
def executeToolRoute (getContent : String → Option ContentResult)
    (hasCb : Bool) (result : ExecResult) :
    Option (String × List (String × MetaD)) :=
  if !result.success then
    some ("Error: " ++ result.error.getD "Unknown error", [])
  else if result.responseMode == some "template" then
    some (result.response.getD "Action completed.", [])
  else if result.responseMode == some "passthrough" then
    if pyTruthyStr result.userContentRef then
      match result.userContentRef with
      | some ref =>
        match getContent ref with
        | none => none
        | some cr =>
          if cr.success then
            match cr.content with
            | none => none
            | some cd =>
              let contentText := cd.content.getD ""
              let metadata := cd.metadata.getD []
              let log := if hasCb then [(contentText, metadata)] else []
              let contentType := result.contentType.getD "content"
              some ("[" ++ contentType ++ " delivered to user]", log)
          else
            some ("Content delivered to user.", [])
      | none => some ("Content delivered to user.", [])
    else
      some ("Content delivered to user.", [])
  else
    some (result.response.getD "Action completed.", [])

/-- Python `filtered_input = {k: v for k, v in kwargs.items() if v is not None}`. -/
def filterNone (kwargs : List (String × Option JValue)) :
    List (String × JValue) :=
  kwargs.filterMap (fun p => p.2.map (fun v => (p.1, v)))

/-- Model of `TrikClient.execute_tool` end to end: filter `None`-valued kwargs, call
`TrikClient.execute` (with no per-call session argument), then dispatch on
the envelope.  Returns the transmitted payload, the new stored session, and
the routed result (with callback log), `none` meaning an exception. -/
def TrikClient.execute_tool (respond : Payload → HttpResp)
    (getContent : String → Option ContentResult) (hasCb : Bool)
    (toolName : String) (kwargs : List (String × Option JValue))
    (st : Option String) :
    Payload × Option String × Option (String × List (String × MetaD)) :=
  let filtered := filterNone kwargs
  let out := TrikClient.execute respond toolName filtered none st
  (out.payload, out.newSession, executeToolRoute getContent hasCb out.result)

/-! ### `trik_client.py`: schema-to-arguments marshaling -/

/-- One property of an `inputSchema` JSON object: its declared `type` and
`description` (`prop_schema.get("type", "string")`,
`prop_schema.get("description", "")`). -/
structure PropSchema where
  type_ : Option String := none
  description : Option String := none
  deriving DecidableEq

/-- A tool's `inputSchema`: `type`, `properties` and `required` keys. -/
structure InputSchema where
  type_ : Option String := none
  properties : List (String × PropSchema) := []
  required : List String := []
  deriving DecidableEq

/-- One field of the generated Pydantic args model: its name, its mapped
Python type, and whether it is an `Optional[...]` field whose default is
`None`. -/
structure FieldDef where
  name : String
  pyType : String
  optionalNoneDefault : Bool
  deriving DecidableEq

/-- The `type_map` of `TrikClient._build_args_schema`: JSON-schema type names to
Python types; anything else defaults to `str`. -/
def typeMap (jsonType : String) : String :=
  if jsonType == "string" then "str"
  else if jsonType == "integer" then "int"
  else if jsonType == "number" then "float"
  else if jsonType == "boolean" then "bool"
  else if jsonType == "array" then "list"
  else if jsonType == "object" then "dict"
  else "str"

/-- Model of `TrikClient._build_args_schema`: `none` when no args model is built
(non-`object` schema or no properties); otherwise the list of generated
fields.  Required properties keep their bare type; the others become
`Optional[type]` with default `None`. -/
def build_args_schema (inputSchema : InputSchema) : Option (List FieldDef) :=
  if inputSchema.type_ != some "object" then none
  else if inputSchema.properties.isEmpty then none
  else some (inputSchema.properties.map (fun p =>
    { name := p.1,
      pyType := typeMap ((p.2.type_).getD "string"),
      optionalNoneDefault := !(inputSchema.required.contains p.1) }))

/-- Invoking the generated tool function with a set of supplied argument
values: every declared field is bound, a field the caller did not supply
taking its Pydantic default `None` (only optional fields have one, so an
unsupplied required field never reaches this point). -/
def bindArgs (fields : List FieldDef) (supplied : List (String × JValue)) :
    List (String × Option JValue) :=
  fields.map (fun f => (f.name, lookupKey supplied f.name))

/-! ### `tools.py` and `TrikClient.create_langchain_tools`: the registry -/

/-- Provenance of a tool in the merged registry. -/
inductive ToolSource where
  | builtin
  | remote
  deriving DecidableEq

/-- A tool as the agent's registry sees it: its exposed name and where it
came from. -/
structure AgentTool where
  name : String
  description : String
  source : ToolSource
  deriving DecidableEq

/-- The `@tool request_refund` built-in. -/
def request_refund : AgentTool :=
  { name := "request_refund",
    description := "Process a refund request. Use when a user wants their money back.",
    source := .builtin }

/-- The `@tool find_order` built-in. -/
def find_order : AgentTool :=
  { name := "find_order",
    description := "Finds an order based on its description.",
    source := .builtin }

/-- The `@tool get_project_details` built-in. -/
def get_project_details : AgentTool :=
  { name := "get_project_details",
    description := "Get project information. Use when user asks about the project.",
    source := .builtin }

/-- The list `BUILT_IN_TOOLS = [request_refund, find_order, get_project_details]`. -/
def BUILT_IN_TOOLS : List AgentTool :=
  [request_refund, find_order, get_project_details]

/-- A remote tool descriptor from the gateway's `/api/v1/tools` manifest. -/
structure RemoteToolDef where
  name : String
  description : String := ""
  inputSchema : InputSchema := {}
  deriving DecidableEq

/-- Python `name.replace(":", "_")`: every colon replaced by an
underscore. -/
def pyReplaceColon (s : String) : String :=
  ⟨s.data.map (fun c => if c == ':' then '_' else c)⟩

/-- A `StructuredTool` built by `TrikClient.create_langchain_tools`:
`name` is the exposed (colon-sanitized) name, `invokeName` the original
descriptor name captured by the closure and passed to
`TrikClient.execute_tool` on invocation. -/
structure LCTool where
  name : String
  description : String
  invokeName : String
  deriving DecidableEq

/-- Model of `TrikClient.create_langchain_tools`: one `StructuredTool` per manifest
descriptor, exposed under the colon-sanitized name while the closure keeps
the original name for gateway invocation. -/
def create_langchain_tools (defs : List RemoteToolDef) : List LCTool :=
  defs.map (fun d =>
    { name := pyReplaceColon d.name,
      description := d.description,
      invokeName := d.name })

/-- View of a remote `StructuredTool` as a registry entry. -/
def LCTool.toAgentTool (t : LCTool) : AgentTool :=
  { name := t.name, description := t.description, source := .remote }

/-- Model of `ToolLoader.load_trik_tools`: the whole body runs under
`try/except Exception`.  The `Except` argument models the network:
`.error e` is any raised exception (unreachable gateway included), on which
the method prints two warnings and returns `[]`; `.ok defs` is a successful
manifest fetch.  Returns the loaded tools and the printed warnings. -/
def ToolLoader.load_trik_tools (serverUrl : String)
    (manifest : Except String (List RemoteToolDef)) :
    List AgentTool × List String :=
  match manifest with
  | .ok defs => ((create_langchain_tools defs).map LCTool.toAgentTool, [])
  | .error e =>
      ([],
       ["[Triks] Error loading triks from server: " ++ e,
        "[Triks] Make sure trik-server is running at " ++ serverUrl])

/-- Model of `ToolLoader.get_all_tools`: `BUILT_IN_TOOLS + trik_tools`. -/
def ToolLoader.get_all_tools (serverUrl : String)
    (manifest : Except String (List RemoteToolDef)) : List AgentTool :=
  BUILT_IN_TOOLS ++ (ToolLoader.load_trik_tools serverUrl manifest).1

/-- Resolving a tool name in the merged registry: the first tool carrying
that name, in registry order (built-ins precede remote tools). -/
def findTool (tools : List AgentTool) (name : String) : Option AgentTool :=
  tools.find? (fun t => t.name == name)

/-! ### `agent.py`: the passthrough slot -/

/-- The module-level `_last_passthrough_content` slot, made explicit. -/
abbrev Slot := Option (String × MetaD)

/-- Model of `get_last_passthrough_content`: return the slot's content and clear
it. -/
def get_last_passthrough_content (slot : Slot) : Slot × Slot :=
  (slot, none)

/-- Model of `handle_passthrough`: overwrite the slot with the new
(content, metadata) pair. -/
def handle_passthrough (content : String) (metadata : MetaD) (_slot : Slot) :
    Slot :=
  some (content, metadata)

/-! ### `agent.py`: the orchestration graph -/

/-- A tool call attached to an `AIMessage`: opaque id, tool name, and an
argument dictionary (string-valued, which is all `validate_refund`
reads). -/
structure ToolCall where
  id : String
  name : String
  args : List (String × String)
  deriving DecidableEq

/-- A turn of the conversation (`MessagesState` entries):
`HumanMessage`, `AIMessage` (with its tool calls, `tool_calls or []`
already normalized to a list), or `ToolMessage`. -/
inductive Msg where
  | human (text : String)
  | ai (text : String) (tool_calls : List ToolCall)
  | toolMsg (tool_call_id : String) (content : String)
  deriving DecidableEq

/-- The structured verdict of the validator model (`ReasonValidation`). -/
structure Verdict where
  is_valid : Bool
  feedback : String
  deriving DecidableEq

/-- The text of the synthetic rejection `ToolMessage` built by
`validate_refund`. -/
def rejectionText (feedback : String) : String :=
  "VALIDATION FAILED: " ++ feedback ++
    " Please ask the customer for a more specific reason before trying again!"

/-- The `validate_refund` node: if the last message is an `AIMessage`
holding a `request_refund` call, judge that call's `reason` argument with
the validator model (the `validator` oracle — the prompt it receives is a
function of the reason alone); on an invalid verdict return a single
synthetic `ToolMessage` addressed to the refund call's id, otherwise
return no messages. -/
def validate_refund (validator : String → Verdict) (msgs : List Msg) :
    List Msg :=
  match msgs.getLast? with
  | some (.ai _ tool_calls) =>
    match tool_calls.find? (fun tc => tc.name == "request_refund") with
    | none => []
    | some refund_call =>
      let reason := (lookupKey refund_call.args "reason").getD ""
      let evaluation := validator reason
      if evaluation.is_valid then []
      else [.toolMsg refund_call.id (rejectionText evaluation.feedback)]
  | _ => []

/-- Target nodes of the conditional edges (`END` is `terminal`). -/
inductive GNode where
  | agent
  | validate
  | tools
  | terminal
  deriving DecidableEq

/-- Model of `route_after_agent`: `END` unless the last message is an `AIMessage`
with tool calls; `validate_refund` when one of them is a `request_refund`,
else the tool node. -/
def route_after_agent (msgs : List Msg) : GNode :=
  match msgs.getLast? with
  | some (.ai _ tool_calls) =>
    if tool_calls.isEmpty then .terminal
    else if tool_calls.any (fun tc => tc.name == "request_refund") then
      .validate
    else .tools
  | _ => .terminal

/-- Model of `route_after_validation`: back to the agent when validation appended a
rejection `ToolMessage`, else on to the tool node. -/
def route_after_validation (msgs : List Msg) : GNode :=
  match msgs.getLast? with
  | some (.toolMsg _ _) => .agent
  | _ => .tools

/-- The prebuilt `ToolNode` (langgraph), as the spec's `Executing` state
describes it: execute every tool call of the last `AIMessage` through the
registry (the `execTool` oracle) and append one `ToolMessage` per call,
matched by call id.  Also reports the list of executed call ids. -/
def tools_node (execTool : String → List (String × String) → String)
    (msgs : List Msg) : List Msg × List String :=
  match msgs.getLast? with
  | some (.ai _ tool_calls) =>
    (tool_calls.map (fun tc => .toolMsg tc.id (execTool tc.name tc.args)),
     tool_calls.map (·.id))
  | _ => ([], [])

/-- State of one run of the compiled graph: the conversation, the remaining
scripted decisions of the model collaborator (each a pair of response text
and tool calls, consumed by `call_model`), the log of call ids actually
executed by the tool node, and the node about to run. -/
structure AgentState where
  msgs : List Msg
  script : List (String × List ToolCall)
  execLog : List String
  node : GNode
  deriving DecidableEq

/-- One transition of the compiled graph: run the current node, append its
messages, and follow the (conditional) edge out of it, exactly as wired by
`create_agent_graph`. -/
def step (validator : String → Verdict)
    (execTool : String → List (String × String) → String)
    (st : AgentState) : AgentState :=
  match st.node with
  | .agent =>
    match st.script with
    | [] => { st with node := .terminal }
    | d :: rest =>
      let msgs := st.msgs ++ [.ai d.1 d.2]
      { msgs := msgs, script := rest, execLog := st.execLog,
        node := route_after_agent msgs }
  | .validate =>
    let msgs := st.msgs ++ validate_refund validator st.msgs
    { st with msgs := msgs, node := route_after_validation msgs }
  | .tools =>
    let r := tools_node execTool st.msgs
    { st with
      msgs := st.msgs ++ r.1
      execLog := st.execLog ++ r.2
      node := .agent }
  | .terminal => st

/-- Run the graph for at most `fuel` transitions, stopping at `terminal`. -/
def run (validator : String → Verdict)
    (execTool : String → List (String × String) → String) :
    Nat → AgentState → AgentState
  | 0, st => st
  | n + 1, st =>
    if st.node == .terminal then st
    else run validator execTool n (step validator execTool st)

/-- All tool-call ids emitted in `AIMessage`s of a conversation. -/
def callIds (msgs : List Msg) : List String :=
  msgs.foldr (fun m acc =>
    match m with
    | .ai _ tool_calls => tool_calls.map (·.id) ++ acc
    | _ => acc) []

/-- How many `ToolMessage`s of the conversation answer a given call id. -/
def resultCount (msgs : List Msg) (id : String) : Nat :=
  (msgs.filter (fun m =>
    match m with
    | .toolMsg i _ => i == id
    | _ => false)).length

/-- The conversation invariant: every emitted tool-call id has exactly one
matching `ToolMessage`. -/
def allCallsMatched (msgs : List Msg) : Bool :=
  (callIds msgs).all (fun id => resultCount msgs id == 1)

/-! ### Concrete instances used by witnesses and counterexamples -/

/-- A validator verdict oracle that rejects the vague reason
`"I want a refund"` and accepts anything else. -/
def vagueReasonValidator : String → Verdict := fun reason =>
  if reason == "I want a refund" then
    { is_valid := false, feedback := "The reason does not explain why." }
  else
    { is_valid := true, feedback := "" }

/-- A registry execution oracle answering every call with a fixed string. -/
def constExecTool : String → List (String × String) → String :=
  fun _ _ => "ok"

/-- A decision-step cycle in which the model emits two tool calls at once,
one of them a `request_refund` with a vague reason, then answers in plain
text. -/
def danglingInit : AgentState :=
  { msgs := [.human "refund my order and also find it"],
    script :=
      [("", [{ id := "call_1", name := "request_refund",
               args := [("order_id", "ORD123456"),
                        ("reason", "I want a refund")] },
             { id := "call_2", name := "find_order",
               args := [("description", "my order")] }]),
       ("Could you tell me more about why you want the refund?", [])],
    execLog := [], node := .agent }

/-- The single rejected refund call of the witness cycle for the
validation-gate claim. -/
def rejectedRefundCall : ToolCall :=
  { id := "call_9", name := "request_refund",
    args := [("order_id", "ORD1"), ("reason", "I want a refund")] }

/-- A graph state about to run the validation node on a lone vague refund
call. -/
def rejectedRefundState : AgentState :=
  { msgs := [.human "refund my order", .ai "" [rejectedRefundCall]],
    script := [], execLog := ["earlier_call"], node := .validate }

/-- A decoded passthrough envelope with content type `"pdf"`. -/
def pdfEnvelope : ExecResult :=
  { success := true, responseMode := some "passthrough",
    userContentRef := some "ref-1", contentType := some "pdf" }

/-- A content store holding the full document text behind `"ref-1"`. -/
def pdfContentStore : String → Option ContentResult := fun ref =>
  if ref == "ref-1" then
    some { success := true,
           content := some { content := some "FULL DOCUMENT TEXT",
                             metadata := [("contentType", "pdf")] } }
  else none

/-- A gateway that reports ok transport and supplies a session id. -/
def sessionSupplyingGateway : Payload → HttpResp := fun _ =>
  { ok := true, env := { success := true, sessionId := some "sess-2" } }

/-- A gateway that fails with a decodable error envelope and a non-2xx
status. -/
def failingGateway : Payload → HttpResp := fun _ =>
  { ok := false, env := { success := false, error := some "boom" } }

/-- A gateway echoing transport success with an empty envelope, used where
only the transmitted payload matters. -/
def okGateway : Payload → HttpResp := fun _ =>
  { ok := true, env := { success := true } }

/-- A content store with no entries. -/
def emptyContentStore : String → Option ContentResult := fun _ => none

/-! ### Theorems for the claims -/

/-- C1.  The claim states that every ToolCall id emitted in an
AssistantTurn has exactly one matching ToolResultTurn by the time the cycle
reaches Terminal, *including* cycles in which a decision step emits multiple
tool calls of which one is a rejected `request_refund`.  The code violates
this (against its own comment, which says the synthetic ToolMessage exists
"to satisfy requirement that every tool_call gets a response"): in such a
cycle `validate_refund` answers only the refund call and routes back to the
agent, so the accompanying call id `"call_2"` reaches Terminal with no
matching result turn. -/
theorem c1_rejected_refund_leaves_dangling_call :
    (run vagueReasonValidator constExecTool 10 danglingInit).node =
      .terminal ∧
    "call_2" ∈ callIds (run vagueReasonValidator constExecTool 10
      danglingInit).msgs ∧
    resultCount (run vagueReasonValidator constExecTool 10
      danglingInit).msgs "call_2" = 0 ∧
    resultCount (run vagueReasonValidator constExecTool 10
      danglingInit).msgs "call_1" = 1 ∧
    allCallsMatched (run vagueReasonValidator constExecTool 10
      danglingInit).msgs = false := by
  decide

/-- C2.  When the validation gate judges a `request_refund` call invalid,
the transition out of the validation node appends exactly one synthetic
result turn carrying the feedback and addressed to that call's id, returns
control to the decision step (`agent`), and executes nothing: the log of
ids executed by the tool node is unchanged. -/
theorem c2_rejection_synthesizes_result_and_returns_to_agent
    (validator : String → Verdict)
    (execTool : String → List (String × String) → String)
    (st : AgentState) (text : String) (tcs : List ToolCall) (rc : ToolCall)
    (hnode : st.node = .validate)
    (hlast : st.msgs.getLast? = some (.ai text tcs))
    (hfind : tcs.find? (fun tc => tc.name == "request_refund") = some rc)
    (hinval : (validator ((lookupKey rc.args "reason").getD "")).is_valid
      = false) :
    (step validator execTool st).msgs =
      st.msgs ++ [.toolMsg rc.id (rejectionText
        (validator ((lookupKey rc.args "reason").getD "")).feedback)] ∧
    (step validator execTool st).node = .agent ∧
    (step validator execTool st).execLog = st.execLog := by
  simp [step, hnode, validate_refund, hlast, hfind, hinval,
    route_after_validation, List.getLast?_concat]

/-- Witness for C2: the rejection transition evaluated on a concrete state
holding one vague refund call. -/
theorem c2_rejection_witness :
    (step vagueReasonValidator constExecTool rejectedRefundState).msgs =
      rejectedRefundState.msgs ++
        [.toolMsg "call_9"
          (rejectionText "The reason does not explain why.")] ∧
    (step vagueReasonValidator constExecTool rejectedRefundState).node =
      .agent ∧
    (step vagueReasonValidator constExecTool rejectedRefundState).execLog =
      rejectedRefundState.execLog :=
  c2_rejection_synthesizes_result_and_returns_to_agent
    vagueReasonValidator constExecTool rejectedRefundState
    "" [rejectedRefundCall] rejectedRefundCall
    (by decide) (by decide) (by decide) (by decide)

/-- Counterexample for C3: on a successful passthrough envelope of content
type `"pdf"`, `execute_tool` returns the acknowledgment
`"[pdf delivered to user]"`, not the claim's `"[pdf delivered]"`. -/
theorem c3_ack_string_counterexample :
    executeToolRoute pdfContentStore true pdfEnvelope =
      some ("[pdf delivered to user]",
        [("FULL DOCUMENT TEXT", [("contentType", "pdf")])]) ∧
    "[pdf delivered to user]" ≠ "[pdf delivered]" := by
  decide

/-- C3 (amended).  For every decoded envelope reporting success with
response mode `"passthrough"` and a (truthy) `userContentRef` whose content
fetch succeeds, the dispatcher invokes the passthrough callback exactly
once, with exactly the fetched content and metadata, and returns the
acknowledgment `"[<contentType> delivered to user]"` — a string built from
the content type alone, in which the fetched content plays no part. -/
theorem c3_passthrough_ack_amended
    (getContent : String → Option ContentResult)
    (env : ExecResult) (ref : String) (cr : ContentResult) (cd : ContentData)
    (hs : env.success = true)
    (hm : env.responseMode = some "passthrough")
    (href : env.userContentRef = some ref)
    (hne : ref ≠ "")
    (hget : getContent ref = some cr)
    (hcs : cr.success = true)
    (hcd : cr.content = some cd) :
    executeToolRoute getContent true env =
      some ("[" ++ env.contentType.getD "content" ++ " delivered to user]",
            [(cd.content.getD "", cd.metadata.getD [])]) := by
  simp [executeToolRoute, hs, hm, href, hget, hcs, hcd, pyTruthyStr,
    String.isEmpty_iff, hne]

/-- Witness for the amended C3: the passthrough dispatch evaluated on the
concrete pdf envelope. -/
theorem c3_passthrough_ack_amended_witness :
    executeToolRoute pdfContentStore true pdfEnvelope =
      some ("[" ++ (pdfEnvelope.contentType.getD "content") ++
              " delivered to user]",
            [("FULL DOCUMENT TEXT", [("contentType", "pdf")])]) :=
  c3_passthrough_ack_amended pdfContentStore pdfEnvelope "ref-1"
    { success := true,
      content := some { content := some "FULL DOCUMENT TEXT",
                        metadata := [("contentType", "pdf")] } }
    { content := some "FULL DOCUMENT TEXT",
      metadata := [("contentType", "pdf")] }
    (by decide) (by decide) (by decide) (by decide) (by decide) (by decide)
    (by decide)

/-- C4.  In the merged registry, a built-in tool name always resolves (in
registry order, built-ins first) to the built-in tool, whatever descriptors
the gateway supplied — so a remote descriptor colliding with a local name
never shadows it. -/
theorem c4_local_tool_never_shadowed (serverUrl : String)
    (manifest : Except String (List RemoteToolDef)) (name : String)
    (hmem : name ∈ BUILT_IN_TOOLS.map AgentTool.name) :
    findTool (ToolLoader.get_all_tools serverUrl manifest) name =
      findTool BUILT_IN_TOOLS name ∧
    ∃ t, findTool BUILT_IN_TOOLS name = some t ∧ t.source = .builtin := by
  simp [BUILT_IN_TOOLS, request_refund, find_order, get_project_details]
    at hmem
  rcases hmem with h | h | h <;> subst h <;> exact ⟨rfl, _, rfl, rfl⟩

/-- Witness for C4: even when the gateway supplies a descriptor named
`find_order`, the merged registry still resolves `find_order` to the
built-in. -/
theorem c4_local_tool_never_shadowed_witness :
    findTool (ToolLoader.get_all_tools "http://localhost:3002"
        (.ok [{ name := "find_order", description := "impostor" }]))
        "find_order" =
      findTool BUILT_IN_TOOLS "find_order" ∧
    ∃ t, findTool BUILT_IN_TOOLS "find_order" = some t ∧
      t.source = .builtin :=
  c4_local_tool_never_shadowed "http://localhost:3002"
    (.ok [{ name := "find_order", description := "impostor" }])
    "find_order" (by decide)

/-- C5.  The session token: the stored token is put in the payload of every
call on which the caller supplies none; a truthy caller-supplied token is
used instead for that single call; a non-ok response leaves the stored
token unchanged; and any mutation of the stored token comes from an ok
response carrying a truthy session identifier, which becomes the new
token (so the first such response sets it). -/
theorem c5_session_token_lifecycle (respond : Payload → HttpResp)
    (tool : String) (inputData : List (String × JValue))
    (sessionArg st : Option String) :
    (sessionArg = none → pyTruthyStr st = true →
      (TrikClient.execute respond tool inputData sessionArg
        st).payload.sessionId = st) ∧
    (pyTruthyStr sessionArg = true →
      (TrikClient.execute respond tool inputData sessionArg
        st).payload.sessionId = sessionArg) ∧
    ((respond (TrikClient.execute respond tool inputData sessionArg
        st).payload).ok = false →
      (TrikClient.execute respond tool inputData sessionArg
        st).newSession = st) ∧
    ((TrikClient.execute respond tool inputData sessionArg st).newSession
        ≠ st →
      (respond (TrikClient.execute respond tool inputData sessionArg
        st).payload).ok = true ∧
      pyTruthyStr (respond (TrikClient.execute respond tool inputData
        sessionArg st).payload).env.sessionId = true ∧
      (TrikClient.execute respond tool inputData sessionArg st).newSession =
        (respond (TrikClient.execute respond tool inputData sessionArg
          st).payload).env.sessionId) := by
  refine ⟨?_, ?_, ?_, ?_⟩
  · intro ha hst
    subst ha
    cases st with
    | none => simp [pyTruthyStr] at hst
    | some s =>
      simp [TrikClient.execute, txPayload, pyOrStr, pyTruthyStr, hst]
      simpa [pyTruthyStr] using hst
  · intro ha
    simp [TrikClient.execute, txPayload, pyOrStr, ha]
  · intro hok
    simp only [TrikClient.execute] at *
    simp [hok]
  · intro hch
    simp only [TrikClient.execute] at *
    by_cases hok : (respond (txPayload tool inputData sessionArg st)).ok
    · by_cases htr : pyTruthyStr (respond (txPayload tool inputData
          sessionArg st)).env.sessionId = true
      · simp_all
      · simp [hok, htr] at hch
    · simp [hok] at hch

/-- Witness for C5: the stored token is transmitted when the caller
supplies none, and a caller-supplied token overrides it for that call. -/
theorem c5_session_token_lifecycle_witness :
    (TrikClient.execute sessionSupplyingGateway "demo:action" [] none
      (some "sess-1")).payload.sessionId = some "sess-1" ∧
    (TrikClient.execute sessionSupplyingGateway "demo:action" []
      (some "override") (some "sess-1")).payload.sessionId =
        some "override" :=
  ⟨(c5_session_token_lifecycle sessionSupplyingGateway "demo:action" []
      none (some "sess-1")).1 rfl (by decide),
   (c5_session_token_lifecycle sessionSupplyingGateway "demo:action" []
      (some "override") (some "sess-1")).2.1 (by decide)⟩

/-- C6.  Whenever the decoded envelope reports `success: false` — whether
the HTTP status was ok or not — `execute_tool` raises no exception: it
returns (`some`) the tool-result text `"Error: <message>"` built from the
envelope's `error` field. -/
theorem c6_remote_failure_returns_error_text (respond : Payload → HttpResp)
    (getContent : String → Option ContentResult) (hasCb : Bool)
    (tool : String) (kwargs : List (String × Option JValue))
    (st : Option String)
    (hfail : (TrikClient.execute respond tool (filterNone kwargs) none
      st).result.success = false) :
    (TrikClient.execute_tool respond getContent hasCb tool kwargs st).2.2 =
      some ("Error: " ++
        ((TrikClient.execute respond tool (filterNone kwargs) none
          st).result.error.getD "Unknown error"), []) := by
  simp [TrikClient.execute_tool, executeToolRoute, hfail]

/-- Witness for C6: a non-2xx response with a decodable error envelope
becomes the text `Error: boom`. -/
theorem c6_remote_failure_returns_error_text_witness :
    (TrikClient.execute_tool failingGateway emptyContentStore true
      "demo:action" [] none).2.2 = some ("Error: " ++ "boom", []) :=
  c6_remote_failure_returns_error_text failingGateway emptyContentStore
    true "demo:action" [] none (by decide)

/-- C7.  For an input schema with one required string parameter and one
optional integer parameter, invoking the marshaled tool without a value for
the optional parameter transmits an input object that holds only the
required binding: the optional key is absent altogether, not null-valued. -/
theorem c7_unset_optional_param_omitted (respond : Payload → HttpResp)
    (getContent : String → Option ContentResult) (hasCb : Bool)
    (tool reqName optName reqDesc optDesc : String) (reqVal : JValue)
    (st : Option String) (hne : reqName ≠ optName) :
    ∃ fields,
      build_args_schema
        { type_ := some "object",
          properties :=
            [(reqName, { type_ := some "string",
                         description := some reqDesc }),
             (optName, { type_ := some "integer",
                         description := some optDesc })],
          required := [reqName] } = some fields ∧
      (TrikClient.execute_tool respond getContent hasCb tool
          (bindArgs fields [(reqName, reqVal)]) st).1.input =
        [(reqName, reqVal)] ∧
      lookupKey (TrikClient.execute_tool respond getContent hasCb tool
          (bindArgs fields [(reqName, reqVal)]) st).1.input optName =
        none := by
  refine ⟨_, rfl, ?_, ?_⟩
  · simp [TrikClient.execute_tool, TrikClient.execute, txPayload, bindArgs,
      filterNone, lookupKey, hne, Ne.symm hne]
  · simp [TrikClient.execute_tool, TrikClient.execute, txPayload, bindArgs,
      filterNone, lookupKey, hne, Ne.symm hne]

/-- Witness for C7: the schema `{query: string (required), limit: integer
(optional)}` with only `query` supplied transmits `{"query": ...}` with no
`limit` key. -/
theorem c7_unset_optional_param_omitted_witness :
    ∃ fields,
      build_args_schema
        { type_ := some "object",
          properties :=
            [("query", { type_ := some "string",
                         description := some "search terms" }),
             ("limit", { type_ := some "integer",
                         description := some "max results" })],
          required := ["query"] } = some fields ∧
      (TrikClient.execute_tool okGateway emptyContentStore true
          "article-search:search"
          (bindArgs fields [("query", .str "lean formalization")])
          none).1.input =
        [("query", .str "lean formalization")] ∧
      lookupKey (TrikClient.execute_tool okGateway emptyContentStore true
          "article-search:search"
          (bindArgs fields [("query", .str "lean formalization")])
          none).1.input "limit" = none :=
  c7_unset_optional_param_omitted okGateway emptyContentStore true
    "article-search:search" "query" "limit" "search terms" "max results"
    (.str "lean formalization") none (by decide)

/-- C8.  If fetching the remote manifest raises (gateway unreachable
included), registry construction still completes: the merged tool set is
exactly the built-in tool set, and the load step emits its recoverable
warning messages instead of aborting. -/
theorem c8_unreachable_gateway_degrades_to_builtins (serverUrl e : String) :
    ToolLoader.get_all_tools serverUrl (.error e) = BUILT_IN_TOOLS ∧
    (ToolLoader.load_trik_tools serverUrl (.error e)).2 ≠ [] := by
  constructor
  · simp [ToolLoader.get_all_tools, ToolLoader.load_trik_tools]
  · simp [ToolLoader.load_trik_tools]

/-- C9.  The passthrough slot is overwrite-on-write and
take-and-clear-on-read: two writes with no intervening read keep only the
second pair, and a read right after any read returns empty. -/
theorem c9_slot_overwrite_and_clear (slot : Slot) (c1 c2 : String)
    (m1 m2 : MetaD) :
    get_last_passthrough_content
      (handle_passthrough c2 m2 (handle_passthrough c1 m1 slot)) =
      (some (c2, m2), none) ∧
    get_last_passthrough_content (get_last_passthrough_content slot).2 =
      (none, none) :=
  ⟨rfl, rfl⟩

/-- C10.  Every remote descriptor is exposed to the decision step under its
name with all colons replaced by underscores, while the closure keeps the
original colon-separated name for the gateway invocation; in particular
`trikId:actionName` is exposed as `trikId_actionName`. -/
theorem c10_colon_names_sanitized (defs : List RemoteToolDef) :
    ((create_langchain_tools defs).map (fun t => (t.name, t.invokeName)) =
      defs.map (fun d => (pyReplaceColon d.name, d.name))) ∧
    pyReplaceColon "trikId:actionName" = "trikId_actionName" := by
  constructor
  · simp [create_langchain_tools]
  · decide

end Trikhub
